import Mathlib

/-!
Verification development for the CREST repository.

The geometry engine (crest/models/base/gcs.py) is embedded over the real
numbers: Python floats become real numbers, numpy trigonometric calls become
the corresponding Real functions, and astropy Quantity values (always
converted to rad / plain floats by the source before arithmetic) become
plain reals.  The image/state handling code (crest/utils/image,
crest/components/plot/map_sequence/plot.py, crest/apps/jux.py) is embedded
with executable types: pixel arrays as lists of lists of integers, colormap
identifiers as strings, timestamps as integers (seconds), and a raised
Python exception as the none case of an Option result.
-/

namespace Crest

open Real

/-! ## GCSGeometry (crest/models/base/gcs.py)

The state of a GCSGeometry object: the four stored attributes
half_angle, aspect_ratio, leading_edge and cone_height.  The Python class
stores exactly these four (the last two kept coupled by the setters). -/

structure GCSGeometry where
  half_angle : ℝ
  aspect_ratio : ℝ
  leading_edge : ℝ
  cone_height : ℝ

/-- GCSGeometry.compute_cone_height (gcs.py lines 80-88):
leading_edge*cos(alpha)*(1.0 - aspect_ratio)/(1.0 + sin(alpha)). -/
noncomputable def compute_cone_height (half_angle aspect_ratio leading_edge : ℝ) : ℝ :=
  leading_edge * Real.cos half_angle * (1 - aspect_ratio) / (1 + Real.sin half_angle)

/-- GCSGeometry.compute_leading_edge (gcs.py lines 90-98):
cone_height*(1.0 + sin(alpha))/(cos(alpha)*(1.0 - aspect_ratio)). -/
noncomputable def compute_leading_edge (half_angle aspect_ratio cone_height : ℝ) : ℝ :=
  cone_height * (1 + Real.sin half_angle) / (Real.cos half_angle * (1 - aspect_ratio))

/-- The leading_edge setter (gcs.py lines 157-166): store the new value and
recompute the cone height from the (unchanged) half angle and aspect ratio. -/
noncomputable def set_leading_edge (st : GCSGeometry) (value : ℝ) : GCSGeometry :=
  { st with
    leading_edge := value
    cone_height := compute_cone_height st.half_angle st.aspect_ratio value }

/-- The cone_height setter (gcs.py lines 140-149): store the new value and
recompute the leading edge. -/
noncomputable def set_cone_height (st : GCSGeometry) (value : ℝ) : GCSGeometry :=
  { st with
    cone_height := value
    leading_edge := compute_leading_edge st.half_angle st.aspect_ratio value }

/-- The half_angle setter (gcs.py lines 106-113): store the new value, then
re-run the leading_edge setter on the stored leading edge. -/
noncomputable def set_half_angle (st : GCSGeometry) (value : ℝ) : GCSGeometry :=
  set_leading_edge { st with half_angle := value } st.leading_edge

/-- The aspect_ratio setter (gcs.py lines 121-132): store the new value as a
plain float, then re-run the leading_edge setter on the stored leading edge.
The source performs no validation of the value. -/
noncomputable def set_aspect_ratio (st : GCSGeometry) (value : ℝ) : GCSGeometry :=
  set_leading_edge { st with aspect_ratio := value } st.leading_edge

/-- GCSGeometry.rho (gcs.py lines 174-178): h * tan(half_angle), with h the
cone height. -/
noncomputable def rho (st : GCSGeometry) : ℝ :=
  st.cone_height * Real.tan st.half_angle

/-- GCSGeometry.b (gcs.py lines 180-184): h / cos(half_angle). -/
noncomputable def b (st : GCSGeometry) : ℝ :=
  st.cone_height / Real.cos st.half_angle

/-- GCSGeometry.delta (gcs.py lines 186-190): arcsin(aspect_ratio). -/
noncomputable def delta (st : GCSGeometry) : ℝ :=
  Real.arcsin st.aspect_ratio

/-- GCSGeometry.X0 (gcs.py lines 204-210):
(rho + b*k_sqr*sin(beta))/(1.0 - k_sqr) with k_sqr = aspect_ratio**2. -/
noncomputable def X0 (st : GCSGeometry) (beta : ℝ) : ℝ :=
  (rho st + b st * st.aspect_ratio ^ 2 * Real.sin beta) / (1 - st.aspect_ratio ^ 2)

/-- The local value R_sqr of GCSGeometry.R (gcs.py line 219):
X0**2 + (k_sqr*b*b - rho*rho)/(1.0 - k_sqr). -/
noncomputable def R_sqr (st : GCSGeometry) (beta : ℝ) : ℝ :=
  X0 st beta ^ 2
    + (st.aspect_ratio ^ 2 * b st * b st - rho st * rho st) / (1 - st.aspect_ratio ^ 2)

/-- GCSGeometry.R (gcs.py lines 212-221): sqrt(R_sqr).  The source applies
numpy sqrt with no guard, so a negative R_sqr silently yields NaN there; the
real-number embedding of that unguarded sqrt is the (total) Real.sqrt. -/
noncomputable def R (st : GCSGeometry) (beta : ℝ) : ℝ :=
  Real.sqrt (R_sqr st beta)

/-- The in_rhs_leg condition of cross_section_circle (gcs.py line 230):
beta >= -0.5*pi and beta <= -half_angle. -/
def in_rhs_leg (st : GCSGeometry) (beta : ℝ) : Prop :=
  -(Real.pi / 2) ≤ beta ∧ beta ≤ -st.half_angle

/-- The in_lhs_leg condition (gcs.py line 233):
beta >= pi + half_angle and beta <= 3*pi/2. -/
def in_lhs_leg (st : GCSGeometry) (beta : ℝ) : Prop :=
  Real.pi + st.half_angle ≤ beta ∧ beta ≤ 3 * Real.pi / 2

/-- The in_curved_section condition (gcs.py line 236):
beta > -half_angle and beta < pi + half_angle. -/
def in_curved_section (st : GCSGeometry) (beta : ℝ) : Prop :=
  -st.half_angle < beta ∧ beta < Real.pi + st.half_angle

open Classical in
/-- GCSGeometry.cross_section_circle (gcs.py lines 223-279).  Returns
(center, radius, normal) with center and normal as (x, y, z) triples; the
z components stay at their numpy zeros initialisation.  The final else
branch raises ValueError in the source; that raise is the none case here. -/
noncomputable def cross_section_circle (st : GCSGeometry) (beta : ℝ) :
    Option ((ℝ × ℝ × ℝ) × ℝ × (ℝ × ℝ × ℝ)) :=
  if in_rhs_leg st beta then
    let OQ := st.cone_height - rho st * Real.tan (-(beta + st.half_angle))
    some ((OQ * Real.sin st.half_angle, OQ * Real.cos st.half_angle, 0),
          OQ * Real.tan (delta st),
          (Real.sin st.half_angle, Real.cos st.half_angle, 0))
  else if in_lhs_leg st beta then
    let OQ := st.cone_height - rho st * Real.tan (beta - st.half_angle - Real.pi)
    some ((-(OQ * Real.sin st.half_angle), OQ * Real.cos st.half_angle, 0),
          OQ * Real.tan (delta st),
          (Real.sin st.half_angle, -Real.cos st.half_angle, 0))
  else if in_curved_section st beta then
    some ((X0 st beta * Real.cos beta, X0 st beta * Real.sin beta + b st, 0),
          R st beta,
          (-Real.sin beta, Real.cos beta, 0))
  else
    none

/-- A concrete geometry state used by witnesses: half_angle 1 rad,
aspect_ratio 1/2, leading_edge 1, cone_height 1. -/
noncomputable def stW : GCSGeometry := ⟨1, 1 / 2, 1, 1⟩

/-- The geometry state used by the C8 counterexample: half_angle pi/4,
aspect_ratio 2 (outside the valid domain, which the source never checks),
leading_edge 1, cone_height 1. -/
noncomputable def stC8 : GCSGeometry := ⟨Real.pi / 4, 2, 1, 1⟩

/-! ## RotationTransform (crest/utils/transform.py) and GCSModel.tmatrix -/

namespace RotationTransform

/-- RotationTransform.x (transform.py lines 17-34). -/
noncomputable def x (angle : ℝ) : Matrix (Fin 3) (Fin 3) ℝ :=
  !![1, 0, 0; 0, Real.cos angle, -Real.sin angle; 0, Real.sin angle, Real.cos angle]

/-- RotationTransform.y (transform.py lines 36-53). -/
noncomputable def y (angle : ℝ) : Matrix (Fin 3) (Fin 3) ℝ :=
  !![Real.cos angle, 0, Real.sin angle; 0, 1, 0; -Real.sin angle, 0, Real.cos angle]

/-- RotationTransform.z (transform.py lines 55-72). -/
noncomputable def z (angle : ℝ) : Matrix (Fin 3) (Fin 3) ℝ :=
  !![Real.cos angle, -Real.sin angle, 0; Real.sin angle, Real.cos angle, 0; 0, 0, 1]

end RotationTransform

/-- GCSModel.tmatrix (gcs.py lines 358-360) together with the rotation
transforms stored by the longitude, latitude and tilt setters (gcs.py lines
308-356): np.dot(rot_z, np.dot(rot_y, rot_x)) with
rot_z = Rz(-0.5*pi + longitude), rot_y = Ry(tilt), rot_x = Rx(latitude). -/
noncomputable def tmatrix (longitude latitude tilt : ℝ) : Matrix (Fin 3) (Fin 3) ℝ :=
  RotationTransform.z (-(Real.pi / 2) + longitude)
    * (RotationTransform.y tilt * RotationTransform.x latitude)

/-! ## Image modifiers (crest/utils/image) and the map-sequence plot
container (crest/components/plot/map_sequence/plot.py) -/

/-- Pixel data of one frame: a 2D integer array. -/
abbrev Grid := List (List ℤ)

/-- Elementwise numpy subtraction of two equally shaped arrays. -/
def gridSub (a c : Grid) : Grid :=
  List.zipWith (fun ra rc => List.zipWith (fun u v => u - v) ra rc) a c

/-- One sunpy map of a MapSequence: its pixel data and its intrinsic
colormap, identified by name. -/
structure SunMap where
  data : Grid
  cmap : String
deriving DecidableEq

/-- DifferenceImageModifier state (difference.py lines 16-32 plus base.py
lines 15-31): the enabled flag of the base class and the reference frame
index (None when unset). -/
structure DifferenceImageModifier where
  is_enabled : Bool
  reference_frame : Option ℤ
deriving DecidableEq

/-- DifferenceImageModifier.is_valid_reference_frame (difference.py lines
34-36): not (reference_frame is None or reference_frame < 0), with the
Python short-circuit or. -/
def DifferenceImageModifier.is_valid_reference_frame
    (m : DifferenceImageModifier) : Bool :=
  match m.reference_frame with
  | none => false
  | some r => decide (0 ≤ r)

/-- ColorbarState (plot.py lines 33-37). -/
structure ColorbarState where
  cmap : String
  vmin : Option ℤ
  vmax : Option ℤ
deriving DecidableEq

/-- The state of the displayed matplotlib image handle: the data, colormap
and color limits set by set_data, set_cmap and set_clim. -/
structure ImState where
  data : Grid
  cmap : String
  vmin : Option ℤ
  vmax : Option ℤ
deriving DecidableEq

/-- MapSequencePlotContainer (plot.py lines 40-75): the map sequence, the
colorbar state, the currently displayed frame index, the modifier pipeline
(the constructor installs one DifferenceImageModifier) and the visible
state: the image handle state and the axes face color.  The source derives
the face color as the median of the colormap applied to the normalised
border pixels (plot.py lines 231-240) — a deterministic matplotlib function
of the colormap, the color limits and the border pixels — so the embedding
records that argument tuple as the face color. -/
structure MapSequencePlotContainer where
  map_sequence : List SunMap
  colorbar_state : ColorbarState
  current_frame_index : ℕ
  modifiers : List DifferenceImageModifier
  im : ImState
  ax_facecolor : String × Option ℤ × Option ℤ × List ℤ
deriving DecidableEq

/-- DifferenceImageModifier.__call__ (difference.py lines 39-49): return the
data unchanged unless enabled with a valid reference; otherwise subtract the
pixel data of the reference frame.  An out-of-range reference index raises
IndexError in the source (the none case). -/
def DifferenceImageModifier.call (m : DifferenceImageModifier) (map_meta : Unit)
    (map_data : Grid) (plot_container : MapSequencePlotContainer) : Option Grid :=
  if m.is_enabled = false ∨ m.is_valid_reference_frame = false then
    some map_data
  else
    match m.reference_frame with
    | none => none
    | some r =>
      match plot_container.map_sequence.get? r.toNat with
      | none => none
      | some reference_map => some (gridSub map_data reference_map.data)

/-- MapSequencePlotContainer.num_frames (plot.py lines 81-85). -/
def num_frames (pc : MapSequencePlotContainer) : ℕ :=
  pc.map_sequence.length

/-- MapSequencePlotContainer.get_map_data (plot.py lines 87-101): copy the
frame pixel data and run it through the modifier pipeline. -/
def get_map_data (pc : MapSequencePlotContainer) (frame_index : ℕ) : Option Grid :=
  match pc.map_sequence.get? frame_index with
  | none => none
  | some m =>
    pc.modifiers.foldl (fun acc modifier => acc.bind (fun d => modifier.call () d pc))
      (some m.data)

/-- The border pixels of a 2D array (plot.py line 232):
np.concatenate([data[0,:], data[-1,:], data[:,0], data[:,-1]]). -/
def border_pixels (g : Grid) : List ℤ :=
  g.headD [] ++ g.getLastD [] ++ g.map (fun row => row.headD 0)
    ++ g.map (fun row => row.getLastD 0)

/-- MapSequencePlotContainer.update_to_frame (plot.py lines 207-252).  The
incoming index is clipped to [0, num_frames - 1] (np.clip, line 212); the
clipped frame runs through the modifier pipeline and becomes the image
data; the "default" colormap resolves through self.current_frame_index —
the index of the PREVIOUSLY displayed frame, since current_frame_index is
only assigned afterwards (line 249); the color limits come from the
colorbar state; the face color derives from the resolved colormap, the
limits and the border pixels.  A Python indexing error surfaces as none. -/
def update_to_frame (pc : MapSequencePlotContainer) (frame_index : ℤ) :
    Option MapSequencePlotContainer :=
  let frame : ℕ := (min (max frame_index 0) ((num_frames pc : ℤ) - 1)).toNat
  match get_map_data pc frame with
  | none => none
  | some data =>
    let cmapResolved : Option String :=
      if pc.colorbar_state.cmap = "default" then
        (pc.map_sequence.get? pc.current_frame_index).map (fun m => m.cmap)
      else
        some pc.colorbar_state.cmap
    match cmapResolved with
    | none => none
    | some cmap =>
      some { pc with
        im := { data := data, cmap := cmap,
                vmin := pc.colorbar_state.vmin, vmax := pc.colorbar_state.vmax }
        ax_facecolor := (cmap, pc.colorbar_state.vmin, pc.colorbar_state.vmax,
                         border_pixels data)
        current_frame_index := frame }

/-- A difference modifier that is enabled with reference frame 0. -/
def mOn : DifferenceImageModifier := ⟨true, some 0⟩

/-- Concrete frame with intrinsic colormap gray. -/
def mapA : SunMap := ⟨[[0, 1], [2, 3]], "gray"⟩

/-- Concrete frame with intrinsic colormap hot. -/
def mapB : SunMap := ⟨[[4, 5], [6, 7]], "hot"⟩

/-- A concrete two-frame plot container in its constructed state: colormap
"default", frame index 0, one disabled difference modifier. -/
def pc0 : MapSequencePlotContainer :=
  { map_sequence := [mapA, mapB]
    colorbar_state := ⟨"default", none, none⟩
    current_frame_index := 0
    modifiers := [⟨false, none⟩]
    im := ⟨[], "", none, none⟩
    ax_facecolor := ("", none, none, []) }

/-! ## Multi-view time synchronization (crest/apps/jux.py) -/

/-- The reactive state of the juxtaposition app that on_frame_change reads
and writes: the sync checkbox, the active plot index, the per-plot
timestamp arrays (seconds), the per-plot current frames, the running
difference offsets and the difference frames.  num_frames[i] equals the
length of datetimes[i] in the source (both derive from the same map
sequences). -/
structure JuxState where
  sync_plots : Bool
  active_plot : ℕ
  datetimes : List (List ℤ)
  frames : List ℕ
  running_difference_offsets : List ℤ
  difference_frames : List ℤ
deriving DecidableEq

/-- Helper for np.argmin: first index of the minimum, scanning left to
right with a strict comparison (numpy keeps the first minimum on ties). -/
def argmin_from : List ℕ → ℕ → ℕ → ℕ → ℕ
  | [], _, best_idx, _ => best_idx
  | d :: ds, best, best_idx, i =>
    if d < best then argmin_from ds d i (i + 1)
    else argmin_from ds best best_idx (i + 1)

/-- np.abs(datetimes - target).argmin() (jux.py line 240): the index of the
first minimal absolute time difference. -/
def argmin_abs_diff (l : List ℤ) (target : ℤ) : ℕ :=
  match l.map (fun t => (t - target).natAbs) with
  | [] => 0
  | d :: ds => argmin_from ds d 0 1

/-- on_frame_change (jux.py lines 216-251).  Nothing happens unless
sync_plots is on; an event from a non-active plot is ignored; an event
whose frame disagrees with the stored frame of the active plot raises
RuntimeWarning (the none case).  Otherwise the loop over all plots sets
every other plot to its nearest-in-time frame, and — exactly as the source
does — REUSES the variable target for the clamped running-difference
reference (jux.py line 248), so a plot with a nonzero running-difference
offset overwrites the time target that later plots in the loop compare
against.  (In the source the timestamps are datetime objects and the
clamped integer target would even fail to subtract; timestamps are embedded
as integer seconds, on which the stale comparison yields a wrong frame.) -/
def on_frame_change (s : JuxState) (frame : ℕ) (idx_of_plot : ℕ) :
    Option JuxState :=
  if s.sync_plots then
    if idx_of_plot ≠ s.active_plot then some s
    else
      let target : ℤ := (s.datetimes.getD s.active_plot []).getD frame 0
      if frame ≠ s.frames.getD s.active_plot 0 then none
      else
        let num_plots := s.datetimes.length
        let result :=
          (List.range num_plots).foldl
            (fun (acc : List ℕ × List ℤ × ℤ) pidx =>
              if pidx = s.active_plot then acc
              else
                let closest_frame := argmin_abs_diff (s.datetimes.getD pidx []) acc.2.2
                let frames2 := acc.1.set pidx closest_frame
                if s.running_difference_offsets.getD pidx 0 ≠ 0 then
                  let t1 : ℤ := (closest_frame : ℤ)
                      + s.running_difference_offsets.getD pidx 0
                  let t2 : ℤ := max 0 (min t1 (((s.datetimes.getD pidx []).length : ℤ) - 1))
                  (frames2, acc.2.1.set pidx t2, t2)
                else
                  (frames2, acc.2.1, acc.2.2))
            (s.frames, s.difference_frames, target)
        some { s with frames := result.1, difference_frames := result.2.1 }
  else some s

/-- The two-view scenario of the spec example: view A timestamps
[0, 10, 20, 30], view B timestamps [0, 7, 22], A active on frame 2, no
running differences. -/
def jux1 : JuxState :=
  { sync_plots := true
    active_plot := 0
    datetimes := [[0, 10, 20, 30], [0, 7, 22]]
    frames := [2, 0]
    running_difference_offsets := [0, 0]
    difference_frames := [-1, -1] }

/-- Three views: as jux1 plus a third view identical to B, where view 1 has
running-difference offset 1. -/
def jux2 : JuxState :=
  { sync_plots := true
    active_plot := 0
    datetimes := [[0, 10, 20, 30], [0, 7, 22], [0, 7, 22]]
    frames := [2, 0, 0]
    running_difference_offsets := [0, 1, 0]
    difference_frames := [-1, -1, -1] }

/-! ## Theorems -/

/-- C1: for every valid state (half_angle in [0, pi/2), aspect_ratio in [0, 1))
and every positive leading_edge value L, setting leading_edge to L, reading the
derived cone_height, and recomputing leading_edge from that cone_height via the
invariant formula reproduces L: the round trip is exact over the reals, hence
in particular within the 1e-9 relative tolerance the spec allows. -/
theorem leading_edge_round_trip (st : GCSGeometry) (L : ℝ)
    (h0 : 0 ≤ st.half_angle) (h1 : st.half_angle < Real.pi / 2)
    (h2 : 0 ≤ st.aspect_ratio) (h3 : st.aspect_ratio < 1) (hL : 0 < L) :
    compute_leading_edge st.half_angle st.aspect_ratio (set_leading_edge st L).cone_height = L
    ∧ |compute_leading_edge st.half_angle st.aspect_ratio (set_leading_edge st L).cone_height - L|
        ≤ (1 / 1000000000) * |L| := by
  have hc : 0 < Real.cos st.half_angle := by
    apply Real.cos_pos_of_mem_Ioo
    constructor
    · have := Real.pi_pos
      linarith
    · exact h1
  have hs : 0 ≤ Real.sin st.half_angle := by
    apply Real.sin_nonneg_of_nonneg_of_le_pi h0
    have := Real.pi_pos
    linarith
  have hden : (0:ℝ) < 1 + Real.sin st.half_angle := by linarith
  have hk : (0:ℝ) < 1 - st.aspect_ratio := by linarith
  have heq : compute_leading_edge st.half_angle st.aspect_ratio
      (set_leading_edge st L).cone_height = L := by
    simp only [set_leading_edge, compute_leading_edge, compute_cone_height]
    field_simp
    ring
  refine ⟨heq, ?_⟩
  rw [heq]
  simp only [sub_self, abs_zero]
  positivity

/-- Witness for C1 at the concrete state (0, 0, 1, 1) and L = 1. -/
theorem leading_edge_round_trip_witness :
    ((0:ℝ) ≤ 0 ∧ (0:ℝ) < Real.pi / 2 ∧ (0:ℝ) ≤ 0 ∧ (0:ℝ) < 1 ∧ (0:ℝ) < 1)
    ∧ compute_leading_edge (0:ℝ) (0:ℝ)
        (set_leading_edge ⟨0, 0, 1, 1⟩ 1).cone_height = 1 := by
  have hpi : (0:ℝ) < Real.pi / 2 := by positivity
  exact ⟨⟨le_refl 0, hpi, le_refl 0, by norm_num, by norm_num⟩,
    (leading_edge_round_trip ⟨0, 0, 1, 1⟩ 1 (le_refl 0) hpi (le_refl 0)
      (by norm_num) (by norm_num)).1⟩

/-- C2: for half_angle in (0, pi/2), every beta covered by the three branch
intervals (their union is [-pi/2, 3*pi/2], which contains the swept range
[-pi/2, 3*pi/2)) satisfies exactly one of the three branch conditions and
cross_section_circle returns a value; any beta outside the covered range
falls through every branch and hits the raise (the none case). -/
theorem cross_section_branches (st : GCSGeometry) (beta : ℝ)
    (h0 : 0 < st.half_angle) (h1 : st.half_angle < Real.pi / 2) :
    ((-(Real.pi / 2) ≤ beta ∧ beta ≤ 3 * Real.pi / 2) →
       ((in_rhs_leg st beta ∧ ¬in_lhs_leg st beta ∧ ¬in_curved_section st beta)
        ∨ (¬in_rhs_leg st beta ∧ in_lhs_leg st beta ∧ ¬in_curved_section st beta)
        ∨ (¬in_rhs_leg st beta ∧ ¬in_lhs_leg st beta ∧ in_curved_section st beta))
       ∧ (cross_section_circle st beta).isSome = true)
    ∧ ((beta < -(Real.pi / 2) ∨ 3 * Real.pi / 2 < beta) →
       cross_section_circle st beta = none) := by
  have hpi := Real.pi_pos
  constructor
  · rintro ⟨hlo, hhi⟩
    by_cases hr : beta ≤ -st.half_angle
    · have hin : in_rhs_leg st beta := ⟨hlo, hr⟩
      refine ⟨Or.inl ⟨hin, ?_, ?_⟩, ?_⟩
      · rintro ⟨hx, -⟩; linarith
      · rintro ⟨hx, -⟩; linarith
      · unfold cross_section_circle
        rw [if_pos hin]
        rfl
    · push_neg at hr
      by_cases hc : beta < Real.pi + st.half_angle
      · have hnr : ¬in_rhs_leg st beta := by rintro ⟨-, hx⟩; linarith
        have hnl : ¬in_lhs_leg st beta := by rintro ⟨hx, -⟩; linarith
        refine ⟨Or.inr (Or.inr ⟨hnr, hnl, hr, hc⟩), ?_⟩
        unfold cross_section_circle
        rw [if_neg hnr, if_neg hnl, if_pos (show in_curved_section st beta from ⟨hr, hc⟩)]
        rfl
      · push_neg at hc
        have hnr : ¬in_rhs_leg st beta := by rintro ⟨-, hx⟩; linarith
        have hin : in_lhs_leg st beta := ⟨hc, hhi⟩
        refine ⟨Or.inr (Or.inl ⟨hnr, hin, ?_⟩), ?_⟩
        · rintro ⟨-, hx⟩; linarith
        · unfold cross_section_circle
          rw [if_neg hnr, if_pos hin]
          rfl
  · rintro (hlt | hgt)
    · have hnr : ¬in_rhs_leg st beta := by rintro ⟨hx, -⟩; linarith
      have hnl : ¬in_lhs_leg st beta := by rintro ⟨hx, -⟩; linarith
      have hnc : ¬in_curved_section st beta := by rintro ⟨hx, -⟩; linarith
      unfold cross_section_circle
      rw [if_neg hnr, if_neg hnl, if_neg hnc]
    · have hnr : ¬in_rhs_leg st beta := by rintro ⟨-, hx⟩; linarith
      have hnl : ¬in_lhs_leg st beta := by rintro ⟨-, hx⟩; linarith
      have hnc : ¬in_curved_section st beta := by rintro ⟨-, hx⟩; linarith
      unfold cross_section_circle
      rw [if_neg hnr, if_neg hnl, if_neg hnc]

/-- Witness for C2 at half_angle 1 rad and beta 0 (curved branch). -/
theorem cross_section_branches_witness :
    ((0:ℝ) < stW.half_angle ∧ stW.half_angle < Real.pi / 2
      ∧ -(Real.pi / 2) ≤ (0:ℝ) ∧ (0:ℝ) ≤ 3 * Real.pi / 2)
    ∧ ((in_rhs_leg stW 0 ∧ ¬in_lhs_leg stW 0 ∧ ¬in_curved_section stW 0)
        ∨ (¬in_rhs_leg stW 0 ∧ in_lhs_leg stW 0 ∧ ¬in_curved_section stW 0)
        ∨ (¬in_rhs_leg stW 0 ∧ ¬in_lhs_leg stW 0 ∧ in_curved_section stW 0))
    ∧ (cross_section_circle stW 0).isSome = true := by
  have hpi := Real.pi_gt_three
  have ha : (0:ℝ) < stW.half_angle := by norm_num [stW]
  have hb : stW.half_angle < Real.pi / 2 := by
    simp only [stW]
    linarith
  have hlo : -(Real.pi / 2) ≤ (0:ℝ) := by linarith
  have hhi : (0:ℝ) ≤ 3 * Real.pi / 2 := by linarith
  have h := (cross_section_branches stW 0 ha hb).1 ⟨hlo, hhi⟩
  exact ⟨⟨ha, hb, hlo, hhi⟩, h.1, h.2⟩

/-- C3: inside the curved-cap interval (-half_angle, pi + half_angle),
cross_section_circle takes the curved branch and returns radius
sqrt(X0^2 + (k^2 b^2 - rho^2)/(1 - k^2)), center
(X0 cos(beta), X0 sin(beta) + b, 0) and normal (-sin(beta), cos(beta), 0),
where X0 is the closed form (rho + b k^2 sin(beta))/(1 - k^2). -/
theorem cross_section_curved_closed_form (st : GCSGeometry) (beta : ℝ)
    (hl : -st.half_angle < beta) (hr : beta < Real.pi + st.half_angle) :
    cross_section_circle st beta =
      some ((X0 st beta * Real.cos beta, X0 st beta * Real.sin beta + b st, 0),
            Real.sqrt (X0 st beta ^ 2
              + (st.aspect_ratio ^ 2 * b st ^ 2 - rho st ^ 2)
                  / (1 - st.aspect_ratio ^ 2)),
            (-Real.sin beta, Real.cos beta, 0))
    ∧ X0 st beta
        = (rho st + b st * st.aspect_ratio ^ 2 * Real.sin beta)
            / (1 - st.aspect_ratio ^ 2) := by
  have hnr : ¬in_rhs_leg st beta := by rintro ⟨-, hx⟩; linarith
  have hnl : ¬in_lhs_leg st beta := by rintro ⟨hx, -⟩; linarith
  constructor
  · have hRsq : R_sqr st beta
        = X0 st beta ^ 2
          + (st.aspect_ratio ^ 2 * b st ^ 2 - rho st ^ 2) / (1 - st.aspect_ratio ^ 2) := by
      unfold R_sqr
      ring
    unfold cross_section_circle
    rw [if_neg hnr, if_neg hnl, if_pos (show in_curved_section st beta from ⟨hl, hr⟩)]
    unfold R
    rw [hRsq]
  · rfl

/-- Witness for C3 at half_angle 1 rad and beta 0. -/
theorem cross_section_curved_closed_form_witness :
    (-stW.half_angle < (0:ℝ) ∧ (0:ℝ) < Real.pi + stW.half_angle)
    ∧ cross_section_circle stW 0 =
      some ((X0 stW 0 * Real.cos 0, X0 stW 0 * Real.sin 0 + b stW, 0),
            Real.sqrt (X0 stW 0 ^ 2
              + (stW.aspect_ratio ^ 2 * b stW ^ 2 - rho stW ^ 2)
                  / (1 - stW.aspect_ratio ^ 2)),
            (-Real.sin 0, Real.cos 0, 0)) := by
  have hpi := Real.pi_pos
  have hl : -stW.half_angle < (0:ℝ) := by norm_num [stW]
  have hr : (0:ℝ) < Real.pi + stW.half_angle := by
    simp only [stW]
    linarith
  exact ⟨⟨hl, hr⟩, (cross_section_curved_closed_form stW 0 hl hr).1⟩

/-- C4 counterexample: at longitude = 90 deg, latitude = 0, tilt = 0 the
claimed inequality fails: tmatrix EQUALS the reverse-order composition
Rx * Ry * Rz there, because latitude = tilt = 0 make Rx and Ry the identity
and both compositions collapse to Rz(0). -/
theorem tmatrix_reverse_order_equal_at_claim_input :
    tmatrix (Real.pi / 2) 0 0
      = RotationTransform.x 0 * RotationTransform.y 0
          * RotationTransform.z (-(Real.pi / 2) + Real.pi / 2) := by
  have h : (-(Real.pi / 2) + Real.pi / 2 : ℝ) = 0 := by ring
  unfold tmatrix
  rw [h]
  ext i j
  fin_cases i <;> fin_cases j <;>
    simp [RotationTransform.x, RotationTransform.y, RotationTransform.z,
      Matrix.mul_apply, Fin.sum_univ_three]

/-- C4 amended: tmatrix is the fixed-order composition
Rz(-pi/2 + longitude) * Ry(tilt) * Rx(latitude) for all angles, and the
order is significant; but the discriminating input must make at least two
factors non-identity: at longitude = 0, latitude = 90 deg, tilt = 0 the
fixed order differs from the reverse order (at longitude = 90 deg,
latitude = 0, tilt = 0 the two coincide, see the counterexample). -/
theorem tmatrix_fixed_composition_order :
    (∀ lon lat tilt, tmatrix lon lat tilt
        = RotationTransform.z (-(Real.pi / 2) + lon) * RotationTransform.y tilt
            * RotationTransform.x lat)
    ∧ tmatrix 0 (Real.pi / 2) 0
        ≠ RotationTransform.x (Real.pi / 2) * RotationTransform.y 0
            * RotationTransform.z (-(Real.pi / 2) + 0) := by
  constructor
  · intro lon lat tilt
    exact (mul_assoc _ _ _).symm
  · intro h
    have h01 := congrFun (congrFun h 0) 1
    simp [tmatrix, RotationTransform.x, RotationTransform.y, RotationTransform.z,
      Matrix.mul_apply, Fin.sum_univ_three] at h01

/-- C5: the difference modifier returns its input unchanged whenever it is
disabled or its reference frame is invalid (unset or negative); when enabled
with a reference index r >= 0 that is in range, it returns the input minus
the pixel data of frame r. -/
theorem difference_modifier_apply (m : DifferenceImageModifier) (d : Grid)
    (pc : MapSequencePlotContainer) :
    ((m.is_enabled = false ∨ m.is_valid_reference_frame = false) →
        m.call () d pc = some d)
    ∧ (∀ r reference_map, m.is_enabled = true → m.reference_frame = some r →
        0 ≤ r → pc.map_sequence.get? r.toNat = some reference_map →
        m.call () d pc = some (gridSub d reference_map.data)) := by
  constructor
  · intro h
    unfold DifferenceImageModifier.call
    rw [if_pos h]
  · intro r reference_map hen href hr hget
    have hval : m.is_valid_reference_frame = true := by
      unfold DifferenceImageModifier.is_valid_reference_frame
      rw [href]
      simp [hr]
    unfold DifferenceImageModifier.call
    rw [if_neg (by simp [hen, hval])]
    rw [href]
    show (match pc.map_sequence.get? r.toNat with
      | none => none
      | some rm => some (gridSub d rm.data)) = some (gridSub d reference_map.data)
    rw [hget]

/-- Witness for C5: the enabled modifier with reference 0 acting on the
two-frame container subtracts the data of frame 0. -/
theorem difference_modifier_apply_witness :
    (mOn.is_enabled = true ∧ mOn.reference_frame = some 0 ∧ (0:ℤ) ≤ 0
      ∧ pc0.map_sequence.get? (0:ℤ).toNat = some mapA)
    ∧ mOn.call () [[9, 9]] pc0 = some (gridSub [[9, 9]] mapA.data) :=
  ⟨⟨rfl, rfl, le_refl 0, by decide⟩,
    (difference_modifier_apply mOn [[9, 9]] pc0).2 0 mapA rfl rfl (le_refl 0)
      (by decide)⟩

/-- C6: update_to_frame clamps the index (negative to 0, too large to
num_frames - 1) but is NOT idempotent: on the two-frame container with the
"default" colormap, the first update_to_frame(1) resolves the colormap from
the stale current_frame_index 0 (giving "gray", the colormap of frame 0,
instead of frame 1), and a second identical call then resolves "hot", so the
visible state changes between the two calls. -/
theorem update_to_frame_stale_default_cmap :
    (update_to_frame pc0 1).map (fun s => s.im.cmap) = some "gray"
    ∧ ((update_to_frame pc0 1).bind (fun s => update_to_frame s 1)).map
        (fun s => s.im.cmap) = some "hot"
    ∧ (update_to_frame pc0 1).map (fun s => s.current_frame_index) = some 1
    ∧ (update_to_frame pc0 (-5)).map (fun s => s.current_frame_index) = some 0
    ∧ (update_to_frame pc0 7).map (fun s => s.current_frame_index) = some 1
    ∧ (update_to_frame pc0 1).bind (fun s => update_to_frame s 1)
        ≠ update_to_frame pc0 1 := by
  decide

/-- C7 counterexample: the aspect_ratio setter (gcs.py lines 121-132)
performs no domain validation, so setting aspect_ratio = 1 does not fail:
it stores the value, keeps the leading edge, and recomputes the cone height
as leading_edge*cos(alpha)*(1-1)/(1+sin(alpha)) = 0.  No DomainError exists
anywhere in the source; the setter is a total function.  Starting from the
state (0, 0, 1, 1), the result is the definite state (0, 1, 1, 0). -/
theorem set_aspect_ratio_one_silently_accepted :
    set_aspect_ratio (⟨0, 0, 1, 1⟩ : GCSGeometry) 1
      = (⟨0, 1, 1, 0⟩ : GCSGeometry) := by
  unfold set_aspect_ratio set_leading_edge compute_cone_height
  simp only [GCSGeometry.mk.injEq]
  norm_num

/-- C7 amended: setting aspect_ratio to any value v is silently accepted: the
setter stores v, preserves leading_edge, and recomputes cone_height through
compute_cone_height (which multiplies by (1 - v), so no division by zero
occurs on this path); at v = 1 the recomputed cone_height is exactly 0, a
finite value, and no error is raised. -/
theorem set_aspect_ratio_total (st : GCSGeometry) (v : ℝ) :
    (set_aspect_ratio st v).aspect_ratio = v
    ∧ (set_aspect_ratio st v).leading_edge = st.leading_edge
    ∧ (set_aspect_ratio st v).cone_height
        = st.leading_edge * Real.cos st.half_angle * (1 - v)
            / (1 + Real.sin st.half_angle)
    ∧ (set_aspect_ratio st 1).cone_height = 0 := by
  refine ⟨rfl, rfl, rfl, ?_⟩
  show st.leading_edge * Real.cos st.half_angle * (1 - 1)
      / (1 + Real.sin st.half_angle) = 0
  simp

/-- C8 counterexample: a concrete parameter combination with R_sqr < 0 on
which R raises no DomainError: GCSGeometry.R (gcs.py lines 212-221) has no
guard at all and applies sqrt to the negative value (NaN in floating point;
the total real-number sqrt of the embedding returns 0). -/
theorem R_sqr_negative_without_error :
    R_sqr stC8 0 < 0 ∧ R stC8 0 = 0 := by
  have hrho : rho stC8 = 1 := by
    unfold rho stC8
    simp [Real.tan_pi_div_four]
  have hs2 : Real.sqrt 2 * Real.sqrt 2 = 2 := Real.mul_self_sqrt (by norm_num)
  have hs2pos : 0 < Real.sqrt 2 := Real.sqrt_pos.mpr (by norm_num)
  have hb : b stC8 = Real.sqrt 2 := by
    unfold b stC8
    simp only [Real.cos_pi_div_four]
    rw [eq_comm, eq_div_iff (by positivity)]
    rw [mul_div_assoc']
    rw [hs2]
    norm_num
  have hbb : b stC8 * b stC8 = 2 := by rw [hb]; exact hs2
  have hX0 : X0 stC8 0 = -(1 / 3) := by
    unfold X0
    rw [hrho, hb]
    simp only [Real.sin_zero, mul_zero, add_zero]
    show (1:ℝ) / (1 - stC8.aspect_ratio ^ 2) = -(1 / 3)
    norm_num [stC8]
  have hRsq : R_sqr stC8 0 = -(20 / 9) := by
    unfold R_sqr
    rw [hX0, mul_assoc, hbb, hrho]
    show (-(1 / 3):ℝ) ^ 2 + (stC8.aspect_ratio ^ 2 * 2 - 1 * 1) / (1 - stC8.aspect_ratio ^ 2)
        = -(20 / 9)
    norm_num [stC8]
  constructor
  · rw [hRsq]; norm_num
  · unfold R
    rw [hRsq]
    exact Real.sqrt_eq_zero_of_nonpos (by norm_num)

/-- C8 amended: within the valid domain aspect_ratio in [0, 1) the guarded
case cannot arise at all: for every beta the closed form satisfies
R_sqr >= 0, because (1-k^2)^2 * R_sqr = k^2*((rho + b sin(beta))^2
+ b^2 cos(beta)^2 (1-k^2)).  Outside the domain, where R_sqr < 0 is
possible, the source raises nothing (see the counterexample theorem). -/
theorem R_sqr_nonneg_on_domain (st : GCSGeometry) (beta : ℝ)
    (h0 : 0 ≤ st.aspect_ratio) (h1 : st.aspect_ratio < 1) :
    0 ≤ R_sqr st beta := by
  have hk2 : st.aspect_ratio ^ 2 < 1 := by nlinarith
  have hu : (0:ℝ) < 1 - st.aspect_ratio ^ 2 := by linarith
  have hsin : Real.sin beta ^ 2 ≤ 1 := Real.sin_sq_le_one beta
  have key : (1 - st.aspect_ratio ^ 2) ^ 2 * R_sqr st beta
      = st.aspect_ratio ^ 2 * ((rho st + b st * Real.sin beta) ^ 2
          + b st ^ 2 * (1 - Real.sin beta ^ 2) * (1 - st.aspect_ratio ^ 2)) := by
    unfold R_sqr X0
    field_simp
    ring
  have hA : (0:ℝ) ≤ (rho st + b st * Real.sin beta) ^ 2 := sq_nonneg _
  have hB : (0:ℝ) ≤ b st ^ 2 * (1 - Real.sin beta ^ 2) * (1 - st.aspect_ratio ^ 2) := by
    apply mul_nonneg (mul_nonneg (sq_nonneg _) (by linarith)) (le_of_lt hu)
  have hRHS : (0:ℝ) ≤ st.aspect_ratio ^ 2 * ((rho st + b st * Real.sin beta) ^ 2
      + b st ^ 2 * (1 - Real.sin beta ^ 2) * (1 - st.aspect_ratio ^ 2)) := by
    apply mul_nonneg (sq_nonneg _)
    linarith
  nlinarith [key, hRHS, sq_nonneg (1 - st.aspect_ratio ^ 2), mul_pos hu hu]

/-- Witness for the C8 amended theorem at the state stW (aspect_ratio 1/2). -/
theorem R_sqr_nonneg_on_domain_witness :
    ((0:ℝ) ≤ stW.aspect_ratio ∧ stW.aspect_ratio < 1) ∧ 0 ≤ R_sqr stW 0 := by
  have h0 : (0:ℝ) ≤ stW.aspect_ratio := by norm_num [stW]
  have h1 : stW.aspect_ratio < 1 := by norm_num [stW]
  exact ⟨⟨h0, h1⟩, R_sqr_nonneg_on_domain stW 0 h0 h1⟩

/-- C9: evaluated behaviour of on_frame_change.  In the two-view spec
example, synchronizing on frame 2 of A (t = 20) sets B to index 2 (t = 22),
and an event from the non-active view changes nothing.  But in the
three-view state jux2 the nearest-time property fails: view 1 (running
difference offset 1) overwrites the loop variable target with its clamped
reference index 2, so view 2 is synchronized against the value 2 instead of
the timestamp 20 and ends on frame 0 (t = 0) — the nearest-in-time frame to
t = 20 is index 2 (t = 22). -/
theorem on_frame_change_nearest_and_clobbered_target :
    on_frame_change jux1 2 0 = some { jux1 with frames := [2, 2] }
    ∧ on_frame_change jux1 2 1 = some jux1
    ∧ on_frame_change jux2 2 0
        = some { jux2 with frames := [2, 2, 0], difference_frames := [-1, 2, -1] } := by
  decide

/-- C10: the half_angle and aspect_ratio setters hold leading_edge fixed and
recompute only cone_height, via compute_cone_height applied to the new angle
(resp. the new ratio), the other old parameter and the preserved leading
edge. -/
theorem angle_ratio_setters_preserve_leading_edge (st : GCSGeometry) (v : ℝ) :
    (set_half_angle st v).leading_edge = st.leading_edge
    ∧ (set_half_angle st v).cone_height
        = compute_cone_height v st.aspect_ratio st.leading_edge
    ∧ (set_half_angle st v).half_angle = v
    ∧ (set_half_angle st v).aspect_ratio = st.aspect_ratio
    ∧ (set_aspect_ratio st v).leading_edge = st.leading_edge
    ∧ (set_aspect_ratio st v).cone_height
        = compute_cone_height st.half_angle v st.leading_edge
    ∧ (set_aspect_ratio st v).aspect_ratio = v
    ∧ (set_aspect_ratio st v).half_angle = st.half_angle :=
  ⟨rfl, rfl, rfl, rfl, rfl, rfl, rfl, rfl⟩

end Crest

